import Mathlib

/-!
Verification of the AdaScale autoscaler (`src/autoscaler/src/automl/autoscaler.py`)
against its natural-language specification.

The Python class `AdaScale` is embedded shallowly:

* numpy float arrays become `List ℚ`; the float generalisations `NaN`/`Inf`
  cannot be represented in `ℚ`, so the two `np.isnan(np.sum(..)) or
  np.isinf(np.sum(..))` checks on the *input* vectors are modelled by explicit
  Boolean inputs (`localNanInf`, `totalNanInf`).  Arithmetic on finite
  rationals never produces a non-finite value, so the corresponding checks on
  the *derived* vectors `grad_var`/`grad_sqr` are identically false in the
  embedding.
* The mutable object state (`self._...` attributes plus the
  `optimizer.state['adascale']` dict) becomes the structure `AdaState`.
* Python `assert` becomes `Except.error` with a message identifying the
  assertion; every operation that can assert returns `Except String _`.
* The distributed all-reduce is an external collaborator: `_final_callback`
  takes the reduced vector as an input (when `world_size == 1` the code never
  calls `dist.all_reduce` and keeps using the local vector; the embedding
  mirrors this with an `if`).
* Real-valued powers (`scale ** alpha` in `gain`, the cube root in
  `scale_invariant_steps` for aggressive schedules) are irrational in general;
  they are abstracted as parameters (`maxScale`, `rt3`) supplied to the
  embedded functions, exactly at the places the Python code computes them.
-/

/-- Bias-corrected moving-average series kept in `optimizer.state['adascale']`
under a base key (e.g. `grad_var_avg`).  `avg` is the exposed average stored
under the base key.  `aux` models the presence of the two hidden keys
`<name>_biased` / `<name>_unbias`: they do not exist until `_update_avg` runs
for the first time (`dict.get` with a zero default), and `_adjust_variance`
tests their presence with `"grad_var_avg_biased" in adascale_state`. -/
structure AvgSeries where
  avg : List ℚ
  aux : Option (List ℚ × List ℚ)
  deriving DecidableEq, Repr

/-- Immutable configuration of one `AdaScale` instance (fields of `self` fixed
in `__init__` from `AutoScalerConfig` and the constructor arguments). -/
structure AdaConfig where
  worldSize : Nat
  numGradsToAccum : Nat
  scaleOneWorldSize : Nat
  scaleOneBatchSize : ℚ
  smoothing : ℚ
  adjustGradsForAccumulation : Bool
  isAdaptive : Bool
  aggressiveSchedule : Bool
  resetOptimizerStateOnRestart : Bool
  batchSizeUpperLimit : ℚ
  deriving DecidableEq, Repr

/-- `self._num_grad_samples = self._world_size * self._num_grads_to_accum`. -/
def numGradSamples (cfg : AdaConfig) : Nat :=
  cfg.worldSize * cfg.numGradsToAccum

/-- `self._scale = int(self._num_grad_samples // self._scale_one_world_size)`. -/
def scaleNat (cfg : AdaConfig) : Nat :=
  numGradSamples cfg / cfg.scaleOneWorldSize

/-- The scale factor as a rational, as used in the estimator formulas. -/
def scaleQ (cfg : AdaConfig) : ℚ := (scaleNat cfg : ℚ)

/-- Constructor assertions: `num_grad_samples > 1` and `scale >= 1`. -/
def configOK (cfg : AdaConfig) : Bool :=
  decide (1 < numGradSamples cfg) && decide (1 ≤ scaleNat cfg)

/-- Mutable state of an `AdaScale` object: the `self._...` attributes that the
verified operations read or write, together with the persisted
`optimizer.state['adascale']` entries (`scaleInvariantSteps`, `stateScale`,
`gnsAvg`, `gradSqrAvg`, `gradVarAvg`). -/
structure AdaState where
  /-- `self._gain_invalid[0] != 0` (a 1-element uint8 tensor in the source). -/
  gainInvalid : Bool
  /-- `self._real_iterations`. -/
  realIterations : Nat
  /-- `self._local_grad_sqr`: `some` exactly while a backward window is open. -/
  localGradSqr : Option (List ℚ)
  /-- `self.local_grad_sqr`: previous pre-reduction local sample (outlier guard). -/
  prevLocalGradSqr : Option (List ℚ)
  /-- `self._num_backward_calls`. -/
  numBackwardCalls : Nat
  /-- `self._last_final_backward_call`. -/
  lastFinalBackwardCall : Nat
  /-- `len(self._optimizer.param_groups)`. -/
  numParamGroups : Nat
  /-- `adascale_state['scale_invariant_steps']`. -/
  scaleInvariantSteps : ℚ
  /-- `adascale_state['scale']` (last scale recorded in the state dict). -/
  stateScale : ℚ
  /-- `adascale_state['gns_avg']` (created as the scalar `0.0`, becomes a
  1-element array at the first `_update_avg`; modelled as a list throughout). -/
  gnsAvg : AvgSeries
  /-- `adascale_state['grad_sqr_avg']` and its hidden accumulators. -/
  gradSqrAvg : AvgSeries
  /-- `adascale_state['grad_var_avg']` and its hidden accumulators. -/
  gradVarAvg : AvgSeries
  /-- `self._nonsmooth_var` (tensorboard only). -/
  nonsmoothVar : List ℚ
  /-- `self._nonsmooth_sqr` (tensorboard only). -/
  nonsmoothSqr : List ℚ
  /-- `self._reset_optimizer_state_on_restart` (mutated by `load_state_dict`). -/
  resetOnRestart : Bool
  deriving DecidableEq, Repr

/-- State right after `__init__`/`_setup` for `n` parameter groups:
`_gain_invalid = torch.ones(1)` (flag set), counters zero, window closed,
`grad_sqr_avg = np.ones(n)`, `grad_var_avg = np.zeros(n)`,
`'scale'` seeded with the configured scale. -/
def initState (cfg : AdaConfig) (n : Nat) : AdaState where
  gainInvalid := true
  realIterations := 0
  localGradSqr := none
  prevLocalGradSqr := none
  numBackwardCalls := 0
  lastFinalBackwardCall := 0
  numParamGroups := n
  scaleInvariantSteps := 0
  stateScale := scaleQ cfg
  gnsAvg := { avg := [0], aux := none }
  gradSqrAvg := { avg := List.replicate n 1, aux := none }
  gradVarAvg := { avg := List.replicate n 0, aux := none }
  nonsmoothVar := []
  nonsmoothSqr := []
  resetOnRestart := cfg.resetOptimizerStateOnRestart

/-- `self._MIN_STEPS = 50`. -/
def MIN_STEPS : Nat := 50

/-- `self._SAFE_UPDATE_RATIO = 10.0` (named `safeUpdateLimit` here). -/
def safeUpdateLimit : ℚ := 10

namespace AdaScale

/-- `_grad_sqr_avg(pg_idx)`: entry `pg_idx` of `grad_sqr_avg`, or `np.sum` of
the whole vector when no index is given. -/
def grad_sqr_avg (st : AdaState) (pg : Option Nat) : ℚ :=
  match pg with
  | some i => st.gradSqrAvg.avg.getD i 0
  | none => st.gradSqrAvg.avg.sum

/-- `_grad_var_avg(pg_idx)`: entry `pg_idx` of `grad_var_avg`, or `np.sum` of
the whole vector when no index is given. -/
def grad_var_avg (st : AdaState) (pg : Option Nat) : ℚ :=
  match pg with
  | some i => st.gradVarAvg.avg.getD i 0
  | none => st.gradVarAvg.avg.sum

/-- `gain(pg_idx, alpha)`.  `maxScale` is the value the source computes as
`self.scale` (non-adaptive) or `self.scale ** alpha` (adaptive); the power is
irrational in general so it is taken as a parameter here.  The invalid-flag
check precedes any use of `maxScale`, exactly as in the source. -/
def gain (st : AdaState) (pg : Option Nat) (maxScale : ℚ) : ℚ :=
  let var := grad_var_avg st pg
  let sqr := grad_sqr_avg st pg
  if st.gainInvalid then 1 else (var + sqr) / (var / maxScale + sqr)

/-- `self.scale_invariant_steps(pg_idx)` (the method at line 350, not the
state entry): `1.0` when the invalid flag is set, otherwise the gain formula
with `self.scale`; for `aggressive_schedule` the source returns
`np.power(scale * scale * gain, 1/3)` — the cube root is irrational in
general, so it is abstracted as the parameter `rt3`. -/
def scale_invariant_steps_val (cfg : AdaConfig) (rt3 : ℚ → ℚ) (st : AdaState)
    (pg : Option Nat) : ℚ :=
  if st.gainInvalid then 1
  else
    let var := grad_var_avg st pg
    let sqr := grad_sqr_avg st pg
    let g := (var + sqr) / (var / scaleQ cfg + sqr)
    if cfg.aggressiveSchedule then rt3 (scaleQ cfg * scaleQ cfg * g) else g

/-- `_update_avg(name, value, factor)`: bias-corrected EMA.
`biased = adascale_state.get(name + "_biased", np.zeros(value.shape[0]))`,
`unbias` likewise, then `biased ← f·biased + (1−f)·value`,
`unbias ← f·unbias + (1−f)`, and the exposed entry is `biased / unbias`. -/
def update_avg (s : AvgSeries) (value : List ℚ) (factor : ℚ) : AvgSeries :=
  let b0 := match s.aux with
    | some a => a.1
    | none => List.replicate value.length 0
  let u0 := match s.aux with
    | some a => a.2
    | none => List.replicate value.length 0
  let b := List.zipWith (fun bi vi => factor * bi + (1 - factor) * vi) b0 value
  let u := u0.map (fun ui => factor * ui + (1 - factor))
  { avg := List.zipWith (fun bi ui => bi / ui) b u, aux := some (b, u) }

/-- The two-branch `grad_var` formula of `_final_callback` (lines 628–634),
elementwise over the (already accumulation-adjusted) local and total
squared-norm vectors.
`S > 1`: `local * (S / cN) / (cN - 1) - total * S / (cN - 1)`;
`S == 1`: `local / (cN - 1) - total * cN / (cN - 1)`. -/
def gradVarOf (S cN : ℚ) (localGradSqr totalGradSqr : List ℚ) : List ℚ :=
  if 1 < S then
    List.zipWith (fun l t => l * (S / cN) / (cN - 1) - t * S / (cN - 1))
      localGradSqr totalGradSqr
  else
    List.zipWith (fun l t => l / (cN - 1) - t * cN / (cN - 1))
      localGradSqr totalGradSqr

/-- The matching `grad_sqr` formula (before the `np.maximum(_, 0.0)` clamp):
`total - grad_var / S` when `S > 1`, `total - grad_var / cN` when `S == 1`. -/
def gradSqrOf (S cN : ℚ) (totalGradSqr gradVar : List ℚ) : List ℚ :=
  if 1 < S then
    List.zipWith (fun t v => t - v / S) totalGradSqr gradVar
  else
    List.zipWith (fun t v => t - v / cN) totalGradSqr gradVar

/-- The outlier guard of `_final_callback` (lines 559–567): more than
`MIN_STEPS` real iterations elapsed, previous group-0 pre-reduction sample
positive, and newest/previous ratio above `SAFE_UPDATE_RATIO`.  When
`self.local_grad_sqr` is still `None` it is first seeded with the current
sample, making the ratio 1. -/
def found_outlier (st : AdaState) (v : List ℚ) : Bool :=
  let prev := match st.prevLocalGradSqr with
    | some p => p
    | none => v
  decide (MIN_STEPS < st.realIterations) && decide (0 < prev.getD 0 0) &&
    decide (safeUpdateLimit < v.getD 0 0 / prev.getD 0 0)

/-- Accumulation adjustment of the total squared norm (lines 580–581): divide
by `num_grads_to_accum ** 2` when accumulating and the training loop already
pre-divides the loss. -/
def adjustedTotal (cfg : AdaConfig) (total : List ℚ) : List ℚ :=
  if 1 < cfg.numGradsToAccum && cfg.adjustGradsForAccumulation then
    total.map (fun x => x / ((cfg.numGradsToAccum : ℚ) ^ 2))
  else total

/-- Accumulation adjustment of the reduced local vector (lines 597–598):
when `world_size > 1` the vector is the all-reduce result `reduced`,
otherwise it stays the worker's own `v`; multiplied by
`num_grads_to_accum ** 2` unless the loss is pre-divided. -/
def adjustedLocal (cfg : AdaConfig) (v reduced : List ℚ) : List ℚ :=
  let reducedLocal := if 1 < cfg.worldSize then reduced else v
  if cfg.adjustGradsForAccumulation then reducedLocal
  else reducedLocal.map (fun x => x * ((cfg.numGradsToAccum : ℚ) ^ 2))

/-- The `grad_var` sample of a completed window. -/
def windowGradVar (cfg : AdaConfig) (v reduced total : List ℚ) : List ℚ :=
  gradVarOf (scaleQ cfg) (numGradSamples cfg : ℚ) (adjustedLocal cfg v reduced)
    (adjustedTotal cfg total)

/-- The `grad_sqr` sample of a completed window, after the
`np.maximum(grad_sqr, 0.0)` clamp. -/
def windowGradSqr (cfg : AdaConfig) (v reduced total : List ℚ) : List ℚ :=
  (gradSqrOf (scaleQ cfg) (numGradSamples cfg : ℚ) (adjustedTotal cfg total)
      (windowGradVar cfg v reduced total)).map (fun x => max x 0)

/-- The invalidation test of lines 644–654: outlier flagged, or any
`grad_var <= 0`, or any `grad_sqr < 0` (the NaN/Inf checks on these derived
vectors are identically false over finite rationals). -/
def windowInvalid (cfg : AdaConfig) (st : AdaState) (v reduced total : List ℚ) :
    Bool :=
  found_outlier st v ||
    (windowGradVar cfg v reduced total).any (fun x => decide (x ≤ 0)) ||
    (windowGradSqr cfg v reduced total).any (fun x => decide (x < 0))

/-- The body of `_final_callback` on a *completed* window (the code after the
accumulation-count early return), for one worker.

Inputs that come from collaborators:
* `v`: this worker's accumulated `self._local_grad_sqr` (pre-reduction);
* `reduced`: the result of `dist.all_reduce` over the workers' vectors — used
  only when `world_size > 1`, since the source only issues the collective
  then;
* `total`: `self._total_grad_sqr()` (squared norm of the synchronized
  gradient), computed from the parameters' gradients;
* `localNanInf` / `totalNanInf`: whether the float versions of the (reduced,
  adjusted) local and total vectors contain NaN/Inf — `np.isnan(np.sum(·))
  or np.isinf(np.sum(·))`; not representable in `ℚ`, hence explicit inputs.

Steps mirror the source: `torch.clamp_(self._gain_invalid, max=0)` clears
the flag, the NaN/Inf branch broadcasts the previous group-0 smoothed values
and sets the flag; otherwise the two-branch estimate is computed, `grad_sqr`
clamped at 0, the invalidation test run, and the moving averages updated
only when the flag stayed clear; finally the backward counters reset and the
window closes. -/
def finalize_window (cfg : AdaConfig) (st : AdaState) (v reduced total : List ℚ)
    (localNanInf totalNanInf : Bool) : AdaState :=
  let st1 := { st with prevLocalGradSqr := some v }
  if localNanInf || totalNanInf then
    { st1 with
      gainInvalid := true
      nonsmoothVar := [grad_var_avg st (some 0)]
      nonsmoothSqr := [grad_sqr_avg st (some 0)]
      numBackwardCalls := 0
      lastFinalBackwardCall := 0
      localGradSqr := none }
  else
    let gv := windowGradVar cfg v reduced total
    let gs := windowGradSqr cfg v reduced total
    let st2 := { st1 with
      gainInvalid := windowInvalid cfg st v reduced total
      nonsmoothVar := gv
      nonsmoothSqr := gs }
    let st3 :=
      if windowInvalid cfg st v reduced total then st2
      else { st2 with
        gradSqrAvg := update_avg st2.gradSqrAvg gs cfg.smoothing
        gradVarAvg := update_avg st2.gradVarAvg gv cfg.smoothing }
    { st3 with
      numBackwardCalls := 0
      lastFinalBackwardCall := 0
      localGradSqr := none }

/-- `_final_callback`: asserts a window is open, counts the backward call,
returns early (window stays open) while the accumulation count is not a
multiple of `num_grads_to_accum`, and otherwise finalizes the window. -/
def final_callback (cfg : AdaConfig) (st : AdaState) (reduced total : List ℚ)
    (localNanInf totalNanInf : Bool) : Except String AdaState :=
  match st.localGradSqr with
  | none => Except.error "assert isinstance of local_grad_sqr failed"
  | some v =>
    let nCalls := st.numBackwardCalls + 1
    if cfg.numGradsToAccum < nCalls - st.lastFinalBackwardCall then
      Except.error "bug: backward call count exceeds num_grads_to_accum"
    else if (nCalls - st.lastFinalBackwardCall) % cfg.numGradsToAccum ≠ 0 then
      Except.ok { st with numBackwardCalls := nCalls }
    else
      Except.ok
        (finalize_window cfg { st with numBackwardCalls := nCalls } v reduced
          total localNanInf totalNanInf)

/-- `get_step_increment()`: asserts the window is closed; returns `1` without
touching any state when the invalid flag is set; otherwise advances
`scale_invariant_steps` by `self.scale_invariant_steps()`, records the current
scale, bumps `self._real_iterations` and returns the integer floor-delta. -/
def get_step_increment (cfg : AdaConfig) (rt3 : ℚ → ℚ) (st : AdaState) :
    Except String (Int × AdaState) :=
  if st.localGradSqr.isSome then
    Except.error "do not step without finishing backward phase"
  else if st.gainInvalid then Except.ok (1, st)
  else
    let prevSteps : ℚ := (Int.floor st.scaleInvariantSteps : ℚ)
    let newSis := st.scaleInvariantSteps + scale_invariant_steps_val cfg rt3 st none
    let st1 := { st with
      scaleInvariantSteps := newSis
      stateScale := scaleQ cfg
      realIterations := st.realIterations + 1 }
    Except.ok (Int.floor (newSis - prevSteps), st1)

/-- `step(*args, **kwargs)`: asserts the window is closed, multiplies each
parameter group's learning rate by `gain(pg_idx)`, delegates to the scaler
(result captured in `res`) or to the wrapped optimizer (line 741 — the result
is *discarded*, `res` stays `None`), then restores the original learning
rates via `zip(original_lr, param_groups)` and returns `res`.

`innerStep` stands for the wrapped `scaler.step(optimizer)` /
`optimizer.step(...)` call; it observes the learning rates in effect at call
time.  `maxScale` parameterizes `gain` as above (`alpha` defaults to `0.5`).
The returned pair is (Python return value, learning rates after the call);
`none` models Python `None`. -/
def step {R : Type} (st : AdaState) (maxScale : ℚ) (lrs : List ℚ)
    (innerStep : List ℚ → R) (hasScaler : Bool) :
    Except String (Option R × List ℚ) :=
  if st.localGradSqr.isSome then
    Except.error "do not step without finishing backward phase"
  else
    let scaled := lrs.mapIdx (fun i lr => gain st (some i) maxScale * lr)
    let res : Option R :=
      if hasScaler then some (innerStep scaled)
      else
        -- `self._optimizer.step(*args, **kwargs)` is called but `res` is not
        -- assigned (source line 741), so `None` is returned.
        let _ := innerStep scaled
        none
    Except.ok (res, lrs)

/-- `zero_grad()`: asserts the window is closed, then proxies to the wrapped
optimizer (whose state is outside this model). -/
def zero_grad (st : AdaState) : Except String Unit :=
  if st.localGradSqr.isSome then
    Except.error "do not zero_grad in backward"
  else Except.ok ()

end AdaScale

/-- The checkpointed `adascale` entry of `optimizer.state_dict()['state']`:
exactly the keys written by `_setup` plus the hidden accumulator keys once
they exist. -/
structure AdaCheckpoint where
  scaleInvariantSteps : ℚ
  gnsAvg : AvgSeries
  gradSqrAvg : AvgSeries
  gradVarAvg : AvgSeries
  scale : ℚ
  deriving DecidableEq, Repr

namespace AdaScale

/-- `state_dict()`: asserts the window is closed and returns the optimizer's
state dict; only the `adascale` entry is modelled. -/
def state_dict (st : AdaState) : Except String AdaCheckpoint :=
  if st.localGradSqr.isSome then
    Except.error "do not checkpoint in backward"
  else
    Except.ok
      { scaleInvariantSteps := st.scaleInvariantSteps
        gnsAvg := st.gnsAvg
        gradSqrAvg := st.gradSqrAvg
        gradVarAvg := st.gradVarAvg
        scale := st.stateScale }

/-- `_adjust_variance(prev_scale)`: only if the key `grad_var_avg_biased`
exists, multiply `grad_var_avg_biased` and `grad_var_avg` by
`prev_scale / curr_scale` (`curr_scale = self._scale`); `grad_var_avg_unbias`
is untouched. -/
def adjust_variance (cfg : AdaConfig) (prevScale : ℚ) (st : AdaState) : AdaState :=
  match st.gradVarAvg.aux with
  | none => st
  | some a =>
    let factor := prevScale / scaleQ cfg
    { st with
      gradVarAvg :=
        { avg := st.gradVarAvg.avg.map (fun x => x * factor)
          aux := some (a.1.map (fun x => x * factor), a.2) } }

/-- `load_state_dict(data)`.  NOTE the source reads
`prev_scale = adascale_state['scale']` from the *current* controller's state
dict (line 801) — not from the incoming `data` — before merging `data` in.
When `prev_scale == self._scale` the reset-on-restart flag is forced off.
With the reset flag on, the keys `grad_sqr_avg` and `grad_var_avg` are
skipped (their `_biased`/`_unbias` companions are still loaded).  A key
present in `data` overwrites the current entry; the hidden accumulator keys
are overwritten only when `data` has them.  Finally, `_adjust_variance` runs
only when `prev_scale != self._scale`. -/
def load_state_dict (cfg : AdaConfig) (data : AdaCheckpoint) (st : AdaState) :
    Except String AdaState :=
  let prevScale := st.stateScale
  let reset := if prevScale = scaleQ cfg then false else st.resetOnRestart
  if st.localGradSqr.isSome then
    Except.error "do not load checkpoint in backward"
  else
    let gnsSeries : AvgSeries :=
      { avg := data.gnsAvg.avg
        aux := match data.gnsAvg.aux with
          | some a => some a
          | none => st.gnsAvg.aux }
    let sqrSeries : AvgSeries :=
      { avg := if reset then st.gradSqrAvg.avg else data.gradSqrAvg.avg
        aux := match data.gradSqrAvg.aux with
          | some a => some a
          | none => st.gradSqrAvg.aux }
    let varSeries : AvgSeries :=
      { avg := if reset then st.gradVarAvg.avg else data.gradVarAvg.avg
        aux := match data.gradVarAvg.aux with
          | some a => some a
          | none => st.gradVarAvg.aux }
    let st1 := { st with
      scaleInvariantSteps := data.scaleInvariantSteps
      stateScale := data.scale
      gnsAvg := gnsSeries
      gradSqrAvg := sqrSeries
      gradVarAvg := varSeries
      resetOnRestart := reset }
    let st2 := if prevScale = scaleQ cfg then st1 else adjust_variance cfg prevScale st1
    Except.ok st2

end AdaScale

/-- Python `str.startswith` over the character lists of the two strings
(`String.startsWith` itself does not reduce in the kernel). -/
def listPre : List Char → List Char → Bool
  | [], _ => true
  | _ :: _, [] => false
  | p :: ps, c :: cs => p == c && listPre ps cs

/-- `key.startswith(pre)` for model state-dict keys. -/
def keyStarts (key pre : String) : Bool := listPre pre.data key.data

/-- `key.endswith(suf)` for model state-dict keys. -/
def keyEnds (key suf : String) : Bool := listPre suf.data.reverse key.data.reverse

namespace AdaScale

/-- The keys of `optimizer.state['adascale']`, in insertion order: the five
keys created by `_setup`, followed by the hidden accumulator keys in the
order their series were first updated.  (The relative order of the three
accumulator pairs depends on runtime call order; it is irrelevant below
because `add_param_group` already faults on the first key.) -/
def adaStateKeys (st : AdaState) : List String :=
  ["scale_invariant_steps", "gns_avg", "grad_sqr_avg", "grad_var_avg", "scale"]
    ++ (match st.gnsAvg.aux with
        | some _ => ["gns_avg_biased", "gns_avg_unbias"]
        | none => [])
    ++ (match st.gradSqrAvg.aux with
        | some _ => ["grad_sqr_avg_biased", "grad_sqr_avg_unbias"]
        | none => [])
    ++ (match st.gradVarAvg.aux with
        | some _ => ["grad_var_avg_biased", "grad_var_avg_unbias"]
        | none => [])

/-- `np.append(adascale_state[key], val)` for the series keys. -/
def appendSeriesVal (s : AvgSeries) (key base : String) (v : ℚ) : AvgSeries :=
  if key == base then { s with avg := s.avg ++ [v] }
  else if key == base ++ "_biased" then
    { s with
      aux := match s.aux with
        | some a => some (a.1 ++ [v], a.2)
        | none => none }
  else if key == base ++ "_unbias" then
    { s with
      aux := match s.aux with
        | some a => some (a.1, a.2 ++ [v])
        | none => none }
  else s

/-- Dispatch of the append to the series owning `key`.  Only reachable for
keys passing the `startswith` assertion in `add_param_group`. -/
def appendToKey (st : AdaState) (key : String) (v : ℚ) : AdaState :=
  if keyStarts key "grad_sqr_avg" then
    { st with gradSqrAvg := appendSeriesVal st.gradSqrAvg key "grad_sqr_avg" v }
  else if keyStarts key "grad_var_avg" then
    { st with gradVarAvg := appendSeriesVal st.gradVarAvg key "grad_var_avg" v }
  else st

/-- Length of the array stored under `key` (for the trailing shape assert). -/
def keyLen (st : AdaState) (key : String) : Nat :=
  if key == "grad_sqr_avg" then st.gradSqrAvg.avg.length
  else if key == "grad_var_avg" then st.gradVarAvg.avg.length
  else if key == "grad_sqr_avg_biased" then
    (match st.gradSqrAvg.aux with
     | some a => a.1.length
     | none => 0)
  else if key == "grad_sqr_avg_unbias" then
    (match st.gradSqrAvg.aux with
     | some a => a.2.length
     | none => 0)
  else if key == "grad_var_avg_biased" then
    (match st.gradVarAvg.aux with
     | some a => a.1.length
     | none => 0)
  else if key == "grad_var_avg_unbias" then
    (match st.gradVarAvg.aux with
     | some a => a.2.length
     | none => 0)
  else 0

/-- One iteration of the state-extension loop of `add_param_group`:
`assert name.startswith("grad_sqr_avg") or name.startswith("grad_var_avg"),
name`; skip for `_count` keys; otherwise `np.append` the neutral seed
(`1` for `grad_sqr_avg` itself, `0` for everything else) and assert the new
shape matches the number of parameter groups. -/
def addKeyStep (st : AdaState) (key : String) : Except String AdaState :=
  if !(keyStarts key "grad_sqr_avg" || keyStarts key "grad_var_avg") then
    Except.error key
  else if keyEnds key "_count" then Except.ok st
  else
    let v : ℚ := if key == "grad_sqr_avg" then 1 else 0
    let st' := appendToKey st key v
    if keyLen st' key = st'.numParamGroups then Except.ok st'
    else Except.error "bad shape after append"

/-- The `for name in adascale_state.keys()` loop of `add_param_group`,
stopping at the first failing assertion. -/
def runKeys (st : AdaState) : List String → Except String AdaState
  | [] => Except.ok st
  | k :: ks =>
    match addKeyStep st k with
    | Except.error e => Except.error e
    | Except.ok st' => runKeys st' ks

/-- `add_param_group(pg)`: asserts the window is closed, adds the group to
the wrapped optimizer (modelled by bumping `numParamGroups`), re-registers
hooks (no state effect in the model), then runs the extension loop over every
key of `adascale_state`. -/
def add_param_group (st : AdaState) : Except String AdaState :=
  if st.localGradSqr.isSome then
    Except.error "cannot add parameter group during backward"
  else
    let st0 := { st with numParamGroups := st.numParamGroups + 1 }
    runKeys st0 (adaStateKeys st0)

end AdaScale

/-- A configuration with `world_size = 2`, no accumulation and
`scale_one_world_size = 1`: `num_grad_samples = 2`, `scale = 2`. -/
def cfgEx : AdaConfig where
  worldSize := 2
  numGradsToAccum := 1
  scaleOneWorldSize := 1
  scaleOneBatchSize := 32
  smoothing := 1/2
  adjustGradsForAccumulation := false
  isAdaptive := false
  aggressiveSchedule := false
  resetOptimizerStateOnRestart := false
  batchSizeUpperLimit := 1024

/-- A freshly constructed controller over `cfgEx` with one parameter group. -/
def stIdle : AdaState := initState cfgEx 1

/-- `stIdle` after the invalid flag has been cleared. -/
def stValid : AdaState := { stIdle with gainInvalid := false }

/-- `stValid` with an open backward window. -/
def stOpen : AdaState := { stValid with localGradSqr := some [1] }

/-- A state exhibiting the outlier guard with a zero previous sample:
a window holding the sample `[1]`, previous sample `[0]`, past warm-up. -/
def stC6 : AdaState :=
  { stValid with
    localGradSqr := some [1]
    prevLocalGradSqr := some [0]
    realIterations := 51 }

/-- The state produced by finalizing `stC6`'s window with `reduced = [2]`,
`total = [1/2]`: no outlier is flagged (previous sample not positive), the
estimates are `grad_var = [1]`, `grad_sqr = [0]`, and the averages are
updated. -/
def stC6res : AdaState :=
  { stC6 with
    gainInvalid := false
    prevLocalGradSqr := some [1]
    nonsmoothVar := [1]
    nonsmoothSqr := [0]
    gradSqrAvg := { avg := [0], aux := some ([0], [1/2]) }
    gradVarAvg := { avg := [1], aux := some ([1/2], [1/2]) }
    numBackwardCalls := 0
    lastFinalBackwardCall := 0
    localGradSqr := none }

/-- A state past warm-up with a genuine outlier sample: window `[20]`,
previous sample `[1]` (ratio 20 > 10). -/
def stC6w : AdaState :=
  { stValid with
    localGradSqr := some [20]
    prevLocalGradSqr := some [1]
    realIterations := 51 }

/-- The state produced by finalizing `stC6w`'s window with `reduced = [21]`,
`total = [3]`: the outlier is flagged, the averages stay untouched. -/
def stC6wres : AdaState :=
  { stC6w with
    gainInvalid := true
    prevLocalGradSqr := some [20]
    nonsmoothVar := [15]
    nonsmoothSqr := [0]
    numBackwardCalls := 0
    lastFinalBackwardCall := 0
    localGradSqr := none }

/-- An idle state with non-trivial statistics and hidden accumulators
present, used for the checkpoint round-trip. -/
def stC5 : AdaState :=
  { stValid with
    scaleInvariantSteps := 7
    gnsAvg := { avg := [5], aux := some ([5], [1]) }
    gradSqrAvg := { avg := [3], aux := some ([6], [2]) }
    gradVarAvg := { avg := [4], aux := some ([8], [2]) } }

/-- The checkpoint `state_dict()` produces from `stC5`. -/
def ckptC5 : AdaCheckpoint where
  scaleInvariantSteps := 7
  gnsAvg := { avg := [5], aux := some ([5], [1]) }
  gradSqrAvg := { avg := [3], aux := some ([6], [2]) }
  gradVarAvg := { avg := [4], aux := some ([8], [2]) }
  scale := scaleQ cfgEx

/-- A checkpoint saved by a controller whose last-used scale was `1`
(`!= cfgEx`'s configured scale `2`), with hidden accumulators present and
`grad_var_avg = [4]`. -/
def ckptC4 : AdaCheckpoint where
  scaleInvariantSteps := 7
  gnsAvg := { avg := [0], aux := none }
  gradSqrAvg := { avg := [3], aux := some ([3], [1]) }
  gradVarAvg := { avg := [4], aux := some ([4], [1]) }
  scale := 1

/-- Unwraps an `Except`-valued state, with a default for the error case. -/
def runExcept (e : Except String AdaState) (d : AdaState) : AdaState :=
  match e with
  | Except.ok s => s
  | Except.error _ => d

/-! ## Helper lemmas -/

open AdaScale

theorem gradVarOf_length (S cN : ℚ) (l t : List ℚ) :
    (gradVarOf S cN l t).length = min l.length t.length := by
  unfold gradVarOf
  split <;> simp

theorem gradSqrOf_length (S cN : ℚ) (t gv : List ℚ) :
    (gradSqrOf S cN t gv).length = min t.length gv.length := by
  unfold gradSqrOf
  split <;> simp

theorem auxMerge_self (o : Option (List ℚ × List ℚ)) :
    (match o with
      | some a => some a
      | none => o) = o := by
  cases o <;> rfl

theorem final_callback_completes (cfg : AdaConfig) (st : AdaState)
    (reduced total : List ℚ) (lNan tNan : Bool) (v : List ℚ) (st' : AdaState)
    (hv : st.localGradSqr = some v)
    (hcomp : (st.numBackwardCalls + 1 - st.lastFinalBackwardCall)
        % cfg.numGradsToAccum = 0)
    (hok : AdaScale.final_callback cfg st reduced total lNan tNan
        = Except.ok st') :
    st' = AdaScale.finalize_window cfg
      { st with numBackwardCalls := st.numBackwardCalls + 1 } v reduced total
      lNan tNan := by
  simp only [AdaScale.final_callback, hv] at hok
  split at hok
  · simp at hok
  · split at hok
    · next h2 => exact absurd hcomp h2
    · rw [hv]
      exact (Except.ok.inj hok).symm

theorem addParamGroup_asserts (st : AdaState) (h : st.localGradSqr = none) :
    AdaScale.add_param_group st = Except.error "scale_invariant_steps" := by
  have h1 : keyStarts "scale_invariant_steps" "grad_sqr_avg" = false := by decide
  have h2 : keyStarts "scale_invariant_steps" "grad_var_avg" = false := by decide
  simp [AdaScale.add_param_group, h, AdaScale.adaStateKeys, AdaScale.runKeys,
    AdaScale.addKeyStep, h1, h2]

/-! ## Claim theorems -/

/-- C1: for every valid input with `cN > 1`, the outputs of the two-branch
variance/squared-norm formulas of `_final_callback` satisfy
`gradSqr + gradVar/cN = totalGradSqr` when `S = 1`, and
`gradSqr + gradVar/S = totalGradSqr` when `S > 1` (exactly, over `ℚ`),
elementwise at every in-range index `i`. -/
theorem c1_variance_identity (S cN : ℚ) (l t : List ℚ) (i : Nat)
    (hcN : 1 < cN) (hl : i < l.length) (ht : i < t.length) :
    (S = 1 →
      (gradSqrOf S cN t (gradVarOf S cN l t)).getD i 0
        + (gradVarOf S cN l t).getD i 0 / cN = t.getD i 0)
    ∧ (1 < S →
      (gradSqrOf S cN t (gradVarOf S cN l t)).getD i 0
        + (gradVarOf S cN l t).getD i 0 / S = t.getD i 0) := by
  have hgv : i < (gradVarOf S cN l t).length := by
    rw [gradVarOf_length]
    exact lt_min hl ht
  have hgs : i < (gradSqrOf S cN t (gradVarOf S cN l t)).length := by
    rw [gradSqrOf_length]
    exact lt_min ht hgv
  rw [List.getD_eq_getElem _ _ hgs, List.getD_eq_getElem _ _ hgv,
    List.getD_eq_getElem _ _ ht]
  constructor
  · intro hS
    subst hS
    have h1 : ¬ ((1:ℚ) < 1) := lt_irrefl 1
    simp only [gradSqrOf, gradVarOf, if_neg h1, List.getElem_zipWith]
    ring
  · intro hS
    simp only [gradSqrOf, gradVarOf, if_pos hS, List.getElem_zipWith]
    ring

/-- Witness for C1 at `S = 1`, `cN = 4`, `local = [8]`, `total = [1]`. -/
theorem c1_variance_identity_witness :
    (1:ℚ) < 4 ∧ (0:Nat) < ([(8:ℚ)] : List ℚ).length
    ∧ (gradSqrOf 1 4 [1] (gradVarOf 1 4 [8] [1])).getD 0 0
        + (gradVarOf 1 4 [8] [1]).getD 0 0 / 4 = ([(1:ℚ)] : List ℚ).getD 0 0 :=
  ⟨by norm_num, by norm_num,
    (c1_variance_identity 1 4 [8] [1] 0 (by norm_num) (by norm_num)
      (by norm_num)).1 rfl⟩

/-- C2: whenever a completed backward window ends with the invalid flag set
(for whatever reason `_final_callback` set it), the smoothed series
`grad_sqr_avg` and `grad_var_avg` — including their hidden `_biased`/`_unbias`
accumulators — are exactly those of the state before the window. -/
theorem c2_invalid_preserves_averages (cfg : AdaConfig) (st : AdaState)
    (v reduced total : List ℚ) (lNan tNan : Bool) (st' : AdaState)
    (hv : st.localGradSqr = some v)
    (hcomp : (st.numBackwardCalls + 1 - st.lastFinalBackwardCall)
        % cfg.numGradsToAccum = 0)
    (hok : AdaScale.final_callback cfg st reduced total lNan tNan
        = Except.ok st')
    (hinv : st'.gainInvalid = true) :
    st'.gradSqrAvg = st.gradSqrAvg ∧ st'.gradVarAvg = st.gradVarAvg := by
  have hst' := final_callback_completes cfg st reduced total lNan tNan v st' hv
    hcomp hok
  subst hst'
  by_cases hnan : (lNan || tNan) = true
  · constructor <;> simp [AdaScale.finalize_window, hnan]
  · by_cases hbad : AdaScale.windowInvalid cfg
        { st with numBackwardCalls := st.numBackwardCalls + 1 } v reduced total
        = true
    · constructor <;> simp [AdaScale.finalize_window, hnan, hbad]
    · exfalso
      simp [AdaScale.finalize_window, hnan, hbad] at hinv

/-- Witness for C2: finalizing `stOpen`'s window with a NaN flag on the local
vector leaves both average series untouched. -/
theorem c2_invalid_preserves_averages_witness :
    (runExcept (AdaScale.final_callback cfgEx stOpen [2] [1] true false)
        stOpen).gradSqrAvg = stOpen.gradSqrAvg
    ∧ (runExcept (AdaScale.final_callback cfgEx stOpen [2] [1] true false)
        stOpen).gradVarAvg = stOpen.gradVarAvg :=
  c2_invalid_preserves_averages cfgEx stOpen [1] [2] [1] true false
    (runExcept (AdaScale.final_callback cfgEx stOpen [2] [1] true false) stOpen)
    rfl rfl rfl rfl

/-- C3: `gain` returns exactly `1.0` whenever the invalid flag is set, for
any parameter-group index (or none) and any stored averages/scale. -/
theorem c3_gain_invalid_returns_one (st : AdaState) (pg : Option Nat)
    (maxScale : ℚ) (h : st.gainInvalid = true) :
    AdaScale.gain st pg maxScale = 1 := by
  simp [AdaScale.gain, h]

/-- Witness for C3 at the freshly constructed state (flag initialized set). -/
theorem c3_gain_invalid_returns_one_witness :
    stIdle.gainInvalid = true ∧ AdaScale.gain stIdle none 5 = 1 :=
  ⟨rfl, c3_gain_invalid_returns_one stIdle none 5 rfl⟩

/-- C4 (code evaluation): restoring the checkpoint `ckptC4` — saved with
last-used scale `1` — into a freshly constructed controller configured with
scale `2` leaves `grad_var_avg` at `[4]`: no rescaling by
`prevScale/currScale = 1/2` happens, because `load_state_dict` reads
`prev_scale` from the *current* state dict (always the configured scale on a
fresh controller), not from the checkpoint. -/
theorem c4_restore_skips_rescale :
    (AdaScale.load_state_dict cfgEx ckptC4 stIdle).map
        (fun s => s.gradVarAvg.avg) = Except.ok [4]
    ∧ ckptC4.scale ≠ scaleQ cfgEx
    ∧ ckptC4.scale / scaleQ cfgEx * 4 ≠ (4:ℚ) := by
  refine ⟨?_, ?_, ?_⟩
  · norm_num [AdaScale.load_state_dict, AdaScale.adjust_variance, stIdle,
      initState, cfgEx, ckptC4, scaleQ, scaleNat, numGradSamples, Except.map]
  · norm_num [ckptC4, cfgEx, scaleQ, scaleNat, numGradSamples]
  · norm_num [ckptC4, cfgEx, scaleQ, scaleNat, numGradSamples]

/-- C5: with no open window and the state's recorded scale equal to the
configured scale, `load_state_dict (state_dict st)` reproduces the state
exactly (all persisted fields, hidden accumulators included); only the
reset-on-restart flag is forced off. -/
theorem c5_checkpoint_idempotent (cfg : AdaConfig) (st : AdaState)
    (ckpt : AdaCheckpoint)
    (hclosed : st.localGradSqr = none)
    (hscale : st.stateScale = scaleQ cfg)
    (hsd : AdaScale.state_dict st = Except.ok ckpt) :
    AdaScale.load_state_dict cfg ckpt st
      = Except.ok { st with resetOnRestart := false } := by
  have hckpt : ckpt =
      { scaleInvariantSteps := st.scaleInvariantSteps
        gnsAvg := st.gnsAvg
        gradSqrAvg := st.gradSqrAvg
        gradVarAvg := st.gradVarAvg
        scale := st.stateScale } := by
    have : st.localGradSqr.isSome = false := by rw [hclosed]; rfl
    simp [AdaScale.state_dict, this] at hsd
    exact hsd.symm
  subst hckpt
  have hcl : st.localGradSqr.isSome = false := by rw [hclosed]; rfl
  simp [AdaScale.load_state_dict, hcl, hscale, auxMerge_self]

/-- Witness for C5 at a state with non-trivial statistics and accumulators. -/
theorem c5_checkpoint_idempotent_witness :
    stC5.localGradSqr = none ∧ stC5.stateScale = scaleQ cfgEx
    ∧ AdaScale.load_state_dict cfgEx ckptC5 stC5
      = Except.ok { stC5 with resetOnRestart := false } :=
  ⟨rfl, rfl, c5_checkpoint_idempotent cfgEx stC5 ckptC5 rfl rfl rfl⟩

/-- C6 (amended): if more than `MIN_STEPS` real iterations have elapsed, the
previous group-0 pre-reduction sample is *positive*, and the newest group-0
sample exceeds `SAFE_UPDATE_RATIO` times the previous one, then finalizing
the window sets the invalid flag and leaves both moving-average series
(hidden accumulators included) unchanged. -/
theorem c6_outlier_invalidates (cfg : AdaConfig) (st : AdaState)
    (v reduced total p : List ℚ) (lNan tNan : Bool) (st' : AdaState)
    (hv : st.localGradSqr = some v)
    (hcomp : (st.numBackwardCalls + 1 - st.lastFinalBackwardCall)
        % cfg.numGradsToAccum = 0)
    (hok : AdaScale.final_callback cfg st reduced total lNan tNan
        = Except.ok st')
    (hprev : st.prevLocalGradSqr = some p)
    (hiter : MIN_STEPS < st.realIterations)
    (hpos : 0 < p.getD 0 0)
    (hratio : safeUpdateLimit * p.getD 0 0 < v.getD 0 0) :
    st'.gainInvalid = true
    ∧ st'.gradSqrAvg = st.gradSqrAvg ∧ st'.gradVarAvg = st.gradVarAvg := by
  have hst' := final_callback_completes cfg st reduced total lNan tNan v st' hv
    hcomp hok
  subst hst'
  have hout : AdaScale.found_outlier
      { st with numBackwardCalls := st.numBackwardCalls + 1 } v = true := by
    simp only [AdaScale.found_outlier, hprev, Bool.and_eq_true,
      decide_eq_true_eq]
    exact ⟨⟨hiter, hpos⟩, (lt_div_iff₀ hpos).mpr hratio⟩
  have hbad : AdaScale.windowInvalid cfg
      { st with numBackwardCalls := st.numBackwardCalls + 1 } v reduced total
      = true := by
    simp [AdaScale.windowInvalid, hout]
  by_cases hnan : (lNan || tNan) = true
  · refine ⟨?_, ?_, ?_⟩ <;> simp [AdaScale.finalize_window, hnan]
  · refine ⟨?_, ?_, ?_⟩ <;> simp [AdaScale.finalize_window, hnan, hbad]

/-- Counterexample to C6 as stated: at `stC6` the newest group-0 sample `1`
exceeds `10 ×` the previous sample `0` and more than `MIN_STEPS` iterations
have elapsed, yet finalizing the window does *not* flag the step (the guard
additionally requires the previous sample to be positive) and the moving
averages are updated. -/
theorem c6_counterexample :
    stC6.localGradSqr = some [1]
    ∧ stC6.prevLocalGradSqr = some [0]
    ∧ MIN_STEPS < stC6.realIterations
    ∧ safeUpdateLimit * (([(0:ℚ)] : List ℚ).getD 0 0)
        < (([(1:ℚ)] : List ℚ).getD 0 0)
    ∧ AdaScale.final_callback cfgEx stC6 [2] [1/2] false false
        = Except.ok stC6res
    ∧ stC6res.gainInvalid = false
    ∧ stC6res.gradSqrAvg ≠ stC6.gradSqrAvg := by
  refine ⟨rfl, rfl, by norm_num [stC6, stValid, stIdle, initState, MIN_STEPS],
    by norm_num [safeUpdateLimit], ?_, rfl, by decide⟩
  norm_num [AdaScale.final_callback, AdaScale.finalize_window,
    AdaScale.windowInvalid, AdaScale.windowGradVar, AdaScale.windowGradSqr,
    AdaScale.found_outlier, AdaScale.adjustedLocal, AdaScale.adjustedTotal,
    AdaScale.gradVarOf, AdaScale.gradSqrOf, AdaScale.update_avg,
    AdaScale.grad_var_avg, AdaScale.grad_sqr_avg, stC6, stC6res, stValid,
    stIdle, initState, cfgEx, scaleQ, scaleNat, numGradSamples, MIN_STEPS,
    safeUpdateLimit]

/-- Witness for the amended C6 at a genuine outlier (previous sample `1`,
newest sample `20`). -/
theorem c6_outlier_invalidates_witness :
    stC6wres.gainInvalid = true
    ∧ stC6wres.gradSqrAvg = stC6w.gradSqrAvg
    ∧ stC6wres.gradVarAvg = stC6w.gradVarAvg :=
  c6_outlier_invalidates cfgEx stC6w [20] [21] [3] [1] false false stC6wres
    rfl rfl
    (by norm_num [AdaScale.final_callback, AdaScale.finalize_window,
      AdaScale.windowInvalid, AdaScale.windowGradVar, AdaScale.windowGradSqr,
      AdaScale.found_outlier, AdaScale.adjustedLocal, AdaScale.adjustedTotal,
      AdaScale.gradVarOf, AdaScale.gradSqrOf, AdaScale.grad_var_avg,
      AdaScale.grad_sqr_avg, stC6w, stC6wres, stValid, stIdle, initState,
      cfgEx, scaleQ, scaleNat, numGradSamples, MIN_STEPS, safeUpdateLimit])
    rfl (by norm_num [MIN_STEPS, stC6w, stValid, stIdle, initState])
    (by norm_num) (by norm_num [safeUpdateLimit])

/-- C7 (code evaluation): with no scaler configured, `step` calls the wrapped
optimizer's `step` (here returning `42`) but returns `None` — the source never
assigns its result to `res` — while the learning rates are restored to their
originals; with a scaler, the scaler's result is returned. -/
theorem c7_step_discards_optimizer_result :
    AdaScale.step stValid 2 [5] (fun _ => (42:ℚ)) false
      = Except.ok (none, [5])
    ∧ AdaScale.step stValid 2 [5] (fun _ => (42:ℚ)) true
      = Except.ok (some 42, [5]) := by
  constructor <;> norm_num [AdaScale.step, stValid, stIdle, initState]

/-- C8 (code evaluation): calling `add_param_group` on a freshly constructed
idle controller does not extend the tracked vectors — it dies on the
state-extension loop's assertion at the very first key,
`scale_invariant_steps`, which `_setup` always puts in `adascale_state` and
which starts with neither `grad_sqr_avg` nor `grad_var_avg`. -/
theorem c8_add_param_group_always_asserts :
    AdaScale.add_param_group stValid = Except.error "scale_invariant_steps" :=
  addParamGroup_asserts stValid rfl

/-- C9: while a backward window is open, `step`, `state_dict`,
`load_state_dict`, `zero_grad` and `add_param_group` all fail on their
window-open assertion; with the window closed, none of them can produce that
assertion failure. -/
theorem c9_window_guard (cfg : AdaConfig) (st : AdaState)
    (data : AdaCheckpoint) (maxScale : ℚ) (lrs : List ℚ)
    (inner : List ℚ → ℚ) (hasScaler : Bool) :
    (st.localGradSqr.isSome = true →
      AdaScale.step st maxScale lrs inner hasScaler
          = Except.error "do not step without finishing backward phase"
      ∧ AdaScale.state_dict st = Except.error "do not checkpoint in backward"
      ∧ AdaScale.load_state_dict cfg data st
          = Except.error "do not load checkpoint in backward"
      ∧ AdaScale.zero_grad st = Except.error "do not zero_grad in backward"
      ∧ AdaScale.add_param_group st
          = Except.error "cannot add parameter group during backward")
    ∧ (st.localGradSqr.isSome = false →
      AdaScale.step st maxScale lrs inner hasScaler
          ≠ Except.error "do not step without finishing backward phase"
      ∧ AdaScale.state_dict st ≠ Except.error "do not checkpoint in backward"
      ∧ AdaScale.load_state_dict cfg data st
          ≠ Except.error "do not load checkpoint in backward"
      ∧ AdaScale.zero_grad st ≠ Except.error "do not zero_grad in backward"
      ∧ AdaScale.add_param_group st
          ≠ Except.error "cannot add parameter group during backward") := by
  constructor
  · intro h
    refine ⟨?_, ?_, ?_, ?_, ?_⟩ <;>
      simp [AdaScale.step, AdaScale.state_dict, AdaScale.load_state_dict,
        AdaScale.zero_grad, AdaScale.add_param_group, h]
  · intro h
    have hn : st.localGradSqr = none := by
      cases hc : st.localGradSqr
      · rfl
      · rw [hc] at h
        simp at h
    refine ⟨?_, ?_, ?_, ?_, ?_⟩
    · simp [AdaScale.step, h]
    · simp [AdaScale.state_dict, h]
    · simp [AdaScale.load_state_dict, h]
    · simp [AdaScale.zero_grad, h]
    · rw [addParamGroup_asserts st hn]
      simp

/-- Witness for C9: the open state `stOpen` is rejected by all five
operations, and the closed state `stIdle` by none of them. -/
theorem c9_window_guard_witness :
    (AdaScale.step stOpen 2 [5] (fun _ => (0:ℚ)) false
        = Except.error "do not step without finishing backward phase"
      ∧ AdaScale.state_dict stOpen
        = Except.error "do not checkpoint in backward"
      ∧ AdaScale.load_state_dict cfgEx ckptC4 stOpen
        = Except.error "do not load checkpoint in backward"
      ∧ AdaScale.zero_grad stOpen
        = Except.error "do not zero_grad in backward"
      ∧ AdaScale.add_param_group stOpen
        = Except.error "cannot add parameter group during backward")
    ∧ (AdaScale.step stIdle 2 [5] (fun _ => (0:ℚ)) false
        ≠ Except.error "do not step without finishing backward phase"
      ∧ AdaScale.state_dict stIdle
        ≠ Except.error "do not checkpoint in backward"
      ∧ AdaScale.load_state_dict cfgEx ckptC4 stIdle
        ≠ Except.error "do not load checkpoint in backward"
      ∧ AdaScale.zero_grad stIdle
        ≠ Except.error "do not zero_grad in backward"
      ∧ AdaScale.add_param_group stIdle
        ≠ Except.error "cannot add parameter group during backward") :=
  ⟨(c9_window_guard cfgEx stOpen ckptC4 2 [5] (fun _ => (0:ℚ)) false).1 rfl,
    (c9_window_guard cfgEx stIdle ckptC4 2 [5] (fun _ => (0:ℚ)) false).2 rfl⟩

/-- C10: with no open window, `get_step_increment` returns exactly `1` and
leaves the whole state (in particular `scale_invariant_steps` and
`_real_iterations`) unchanged whenever the invalid flag is set — and the
flag *is* set immediately after construction, for every group count. -/
theorem c10_step_increment_invalid (cfg : AdaConfig) (rt3 : ℚ → ℚ)
    (st : AdaState) (h : st.localGradSqr = none) :
    (st.gainInvalid = true →
      AdaScale.get_step_increment cfg rt3 st = Except.ok (1, st))
    ∧ ∀ n, (initState cfg n).gainInvalid = true := by
  constructor
  · intro hg
    have hcl : st.localGradSqr.isSome = false := by rw [h]; rfl
    simp [AdaScale.get_step_increment, hcl, hg]
  · intro n
    rfl

/-- Witness for C10 at a freshly constructed controller. -/
theorem c10_step_increment_invalid_witness :
    stIdle.localGradSqr = none ∧ stIdle.gainInvalid = true
    ∧ AdaScale.get_step_increment cfgEx id stIdle = Except.ok (1, stIdle) :=
  ⟨rfl, rfl, (c10_step_increment_invalid cfgEx id stIdle rfl).1 rfl⟩
